import Mathlib

set_option maxHeartbeats 1000000
set_option maxRecDepth 4000

/-- JSON values as returned by the Python function json.loads.  Numeric
literals keep their source text, since no code under verification inspects
a numeric value beyond truthiness and string rendering. -/
inductive JVal where
  | null : JVal
  | bool (b : Bool) : JVal
  | num (lit : String) : JVal
  | str (s : String) : JVal
  | arr (elems : List JVal) : JVal
  | obj (members : List (String × JVal)) : JVal

mutual

/-- Decidable equality of JSON values. -/
def JVal.decEqV : (a b : JVal) → Decidable (a = b)
  | .null, .null => isTrue rfl
  | .bool a, .bool b =>
    if h : a = b then isTrue (h ▸ rfl) else isFalse (fun hh => h (JVal.bool.inj hh))
  | .num a, .num b =>
    if h : a = b then isTrue (h ▸ rfl) else isFalse (fun hh => h (JVal.num.inj hh))
  | .str a, .str b =>
    if h : a = b then isTrue (h ▸ rfl) else isFalse (fun hh => h (JVal.str.inj hh))
  | .arr xs, .arr ys =>
    match JVal.decEqL xs ys with
    | isTrue h => isTrue (h ▸ rfl)
    | isFalse h => isFalse (fun hh => h (JVal.arr.inj hh))
  | .obj xs, .obj ys =>
    match JVal.decEqO xs ys with
    | isTrue h => isTrue (h ▸ rfl)
    | isFalse h => isFalse (fun hh => h (JVal.obj.inj hh))
  | .null, .bool _ => isFalse nofun
  | .null, .num _ => isFalse nofun
  | .null, .str _ => isFalse nofun
  | .null, .arr _ => isFalse nofun
  | .null, .obj _ => isFalse nofun
  | .bool _, .null => isFalse nofun
  | .bool _, .num _ => isFalse nofun
  | .bool _, .str _ => isFalse nofun
  | .bool _, .arr _ => isFalse nofun
  | .bool _, .obj _ => isFalse nofun
  | .num _, .null => isFalse nofun
  | .num _, .bool _ => isFalse nofun
  | .num _, .str _ => isFalse nofun
  | .num _, .arr _ => isFalse nofun
  | .num _, .obj _ => isFalse nofun
  | .str _, .null => isFalse nofun
  | .str _, .bool _ => isFalse nofun
  | .str _, .num _ => isFalse nofun
  | .str _, .arr _ => isFalse nofun
  | .str _, .obj _ => isFalse nofun
  | .arr _, .null => isFalse nofun
  | .arr _, .bool _ => isFalse nofun
  | .arr _, .num _ => isFalse nofun
  | .arr _, .str _ => isFalse nofun
  | .arr _, .obj _ => isFalse nofun
  | .obj _, .null => isFalse nofun
  | .obj _, .bool _ => isFalse nofun
  | .obj _, .num _ => isFalse nofun
  | .obj _, .str _ => isFalse nofun
  | .obj _, .arr _ => isFalse nofun

/-- Decidable equality of JSON value lists. -/
def JVal.decEqL : (xs ys : List JVal) → Decidable (xs = ys)
  | [], [] => isTrue rfl
  | [], _ :: _ => isFalse nofun
  | _ :: _, [] => isFalse nofun
  | x :: xs, y :: ys =>
    match JVal.decEqV x y with
    | isFalse h => isFalse (fun hh => h (List.cons.inj hh).1)
    | isTrue h1 =>
      match JVal.decEqL xs ys with
      | isTrue h2 => isTrue (by rw [h1, h2])
      | isFalse h2 => isFalse (fun hh => h2 (List.cons.inj hh).2)

/-- Decidable equality of JSON member lists. -/
def JVal.decEqO : (xs ys : List (String × JVal)) → Decidable (xs = ys)
  | [], [] => isTrue rfl
  | [], _ :: _ => isFalse nofun
  | _ :: _, [] => isFalse nofun
  | (k1, v1) :: xs, (k2, v2) :: ys =>
    if hk : k1 = k2 then
      match JVal.decEqV v1 v2 with
      | isFalse h => isFalse (fun hh => h (congrArg Prod.snd (List.cons.inj hh).1))
      | isTrue h1 =>
        match JVal.decEqO xs ys with
        | isTrue h2 => isTrue (by rw [hk, h1, h2])
        | isFalse h2 => isFalse (fun hh => h2 (List.cons.inj hh).2)
    else isFalse (fun hh => hk (congrArg Prod.fst (List.cons.inj hh).1))

end

instance : DecidableEq JVal := JVal.decEqV

/-- The left-brace character, written by code point. -/
def lbraceC : Char := Char.ofNat 123

/-- The right-brace character, written by code point. -/
def rbraceC : Char := Char.ofNat 125

/-- Characters stripped by the Python str.strip method and matched by the
regex class backslash-s (ASCII part: space, tab, newline, carriage return,
vertical tab, form feed). -/
def pyWs (c : Char) : Bool :=
  c = ' ' || c = '\t' || c = '\n' || c = '\r' || c = Char.ofNat 11 || c = Char.ofNat 12

/-- Python str.strip restricted to ASCII whitespace. -/
def pyStrip (s : String) : String :=
  ⟨((s.data.dropWhile pyWs).reverse.dropWhile pyWs).reverse⟩

/-- Whitespace accepted between JSON tokens (per RFC 8259, as json.loads does). -/
def jsonWs (c : Char) : Bool :=
  c = ' ' || c = '\t' || c = '\n' || c = '\r'

/-- Drop leading JSON whitespace. -/
def skipWs (cs : List Char) : List Char := cs.dropWhile jsonWs

/-- Characters of a string literal. -/
def toL (s : String) : List Char := s.data

/-- Whether the first list is a prefix of the second (regex literal match). -/
def startsWithL : List Char → List Char → Bool
  | [], _ => true
  | _ :: _, [] => false
  | p :: ps, c :: cs => p == c && startsWithL ps cs

/-- Value of a hexadecimal digit. -/
def hexVal (c : Char) : Option Nat :=
  if c.isDigit then some (c.toNat - 48)
  else if 'a' ≤ c && c ≤ 'f' then some (c.toNat - 87)
  else if 'A' ≤ c && c ≤ 'F' then some (c.toNat - 55)
  else none

/-- Single-character JSON string escapes. -/
def escChar (c : Char) : Option Char :=
  if c = '"' then some '"'
  else if c = '\\' then some '\\'
  else if c = '/' then some '/'
  else if c = 'b' then some (Char.ofNat 8)
  else if c = 'f' then some (Char.ofNat 12)
  else if c = 'n' then some '\n'
  else if c = 'r' then some '\r'
  else if c = 't' then some '\t'
  else none

/-- Parse the body of a JSON string after the opening quote, accumulating
characters in reverse.  Unescaped control characters are rejected as in
strict-mode json.loads.  Surrogate pairing of adjacent backslash-u escapes
is not modelled (each escape becomes one scalar, 0 when invalid). -/
def parseStrAux (fuel : Nat) (acc : List Char) (cs : List Char) : Option (String × List Char) :=
  match fuel with
  | 0 => none
  | Nat.succ f =>
    match cs with
    | [] => none
    | c :: rest =>
      if c = '\\' then
        match rest with
        | [] => none
        | e :: rest2 =>
          if e = 'u' then
            match rest2 with
            | h1 :: h2 :: h3 :: h4 :: rest3 =>
              match hexVal h1, hexVal h2, hexVal h3, hexVal h4 with
              | some a, some b, some c2, some d =>
                parseStrAux f (Char.ofNat (a * 4096 + b * 256 + c2 * 16 + d) :: acc) rest3
              | _, _, _, _ => none
            | _ => none
          else
            match escChar e with
            | some ec => parseStrAux f (ec :: acc) rest2
            | none => none
      else if c = '"' then some (⟨acc.reverse⟩, rest)
      else if c.toNat < 32 then none
      else parseStrAux f (c :: acc) rest

/-- Integer part of a JSON number: a lone 0, or a nonzero digit followed by digits. -/
def parseIntPart : List Char → Option (List Char × List Char)
  | [] => none
  | c :: rest =>
    if c = '0' then some ([c], rest)
    else if c.isDigit then some (c :: rest.takeWhile Char.isDigit, rest.dropWhile Char.isDigit)
    else none

/-- Optional fraction part of a JSON number. -/
def parseFrac (cs : List Char) : List Char × List Char :=
  match cs with
  | c :: rest =>
    if c = '.' then
      match rest.takeWhile Char.isDigit with
      | [] => ([], cs)
      | ds => ('.' :: ds, rest.dropWhile Char.isDigit)
    else ([], cs)
  | [] => ([], [])

/-- Optional exponent part of a JSON number. -/
def parseExp (cs : List Char) : List Char × List Char :=
  match cs with
  | c :: rest =>
    if c = 'e' || c = 'E' then
      match rest with
      | s :: rest2 =>
        if s = '+' || s = '-' then
          match rest2.takeWhile Char.isDigit with
          | [] => ([], cs)
          | ds => (c :: s :: ds, rest2.dropWhile Char.isDigit)
        else
          match rest.takeWhile Char.isDigit with
          | [] => ([], cs)
          | ds => (c :: ds, rest.dropWhile Char.isDigit)
      | [] => ([], cs)
    else ([], cs)
  | [] => ([], [])

/-- Lex a JSON numeric literal, keeping its source text. -/
def parseNum (cs : List Char) : Option (String × List Char) :=
  let p : List Char × List Char :=
    match cs with
    | c :: rest => if c = '-' then ([c], rest) else ([], cs)
    | [] => ([], [])
  match parseIntPart p.2 with
  | none => none
  | some (ip, cs2) =>
    let fp := parseFrac cs2
    let ep := parseExp fp.2
    some (⟨p.1 ++ ip ++ fp.1 ++ ep.1⟩, ep.2)

mutual

/-- Recursive-descent JSON value parser (the semantics of json.loads,
including the Python extensions NaN and Infinity).  Fuel only bounds
recursion depth; jsonLoads supplies enough for any input. -/
def parseVal : Nat → List Char → Option (JVal × List Char)
  | 0, _ => none
  | Nat.succ f, cs0 =>
    let cs := skipWs cs0
    match cs with
    | [] => none
    | c :: rest =>
      if c = '"' then
        match parseStrAux (rest.length + 1) [] rest with
        | some (s, r) => some (JVal.str s, r)
        | none => none
      else if c = lbraceC then parseObjBody f (skipWs rest)
      else if c = '[' then parseArrBody f (skipWs rest)
      else if startsWithL (toL "true") cs then some (JVal.bool true, cs.drop 4)
      else if startsWithL (toL "false") cs then some (JVal.bool false, cs.drop 5)
      else if startsWithL (toL "null") cs then some (JVal.null, cs.drop 4)
      else if startsWithL (toL "NaN") cs then some (JVal.num "NaN", cs.drop 3)
      else if startsWithL (toL "Infinity") cs then some (JVal.num "Infinity", cs.drop 8)
      else if startsWithL (toL "-Infinity") cs then some (JVal.num "-Infinity", cs.drop 9)
      else
        match parseNum cs with
        | some (l, r) => some (JVal.num l, r)
        | none => none

/-- Parse an object body after the opening brace (whitespace already skipped). -/
def parseObjBody : Nat → List Char → Option (JVal × List Char)
  | 0, _ => none
  | Nat.succ f, cs =>
    match cs with
    | c :: rest => if c = rbraceC then some (JVal.obj [], rest) else parseMembers f [] cs
    | [] => none

/-- Parse the members of a non-empty JSON object.  Members are accumulated in
order, so a later duplicate key sits later in the list; lookups take the last
occurrence, matching dict insertion semantics of json.loads. -/
def parseMembers : Nat → List (String × JVal) → List Char → Option (JVal × List Char)
  | 0, _, _ => none
  | Nat.succ f, acc, cs =>
    match skipWs cs with
    | [] => none
    | c :: rest =>
      if c = '"' then
        match parseStrAux (rest.length + 1) [] rest with
        | none => none
        | some (k, r1) =>
          match skipWs r1 with
          | [] => none
          | c2 :: r2 =>
            if c2 = ':' then
              match parseVal f r2 with
              | none => none
              | some (v, r3) =>
                match skipWs r3 with
                | [] => none
                | c3 :: r4 =>
                  if c3 = ',' then parseMembers f (acc ++ [(k, v)]) r4
                  else if c3 = rbraceC then some (JVal.obj (acc ++ [(k, v)]), r4)
                  else none
            else none
      else none

/-- Parse an array body after the opening bracket (whitespace already skipped). -/
def parseArrBody : Nat → List Char → Option (JVal × List Char)
  | 0, _ => none
  | Nat.succ f, cs =>
    match cs with
    | c :: rest => if c = ']' then some (JVal.arr [], rest) else parseElems f [] cs
    | [] => none

/-- Parse the elements of a non-empty JSON array. -/
def parseElems : Nat → List JVal → List Char → Option (JVal × List Char)
  | 0, _, _ => none
  | Nat.succ f, acc, cs =>
    match parseVal f cs with
    | none => none
    | some (v, r) =>
      match skipWs r with
      | [] => none
      | c :: r2 =>
        if c = ',' then parseElems f (acc ++ [v]) r2
        else if c = ']' then some (JVal.arr (acc ++ [v]), r2)
        else none

end

/-- The Python json.loads: parse a complete JSON document, rejecting trailing
data.  The fuel bound exceeds the recursion depth reachable on the input. -/
def jsonLoads (s : String) : Option JVal :=
  match parseVal (8 * (s.data.length + 1)) s.data with
  | some (v, rest) => if skipWs rest = [] then some v else none
  | none => none

/-- Dictionary lookup on a decoded JSON object.  The last occurrence of a key
wins, matching how json.loads builds a dict. -/
def jLookup (kvs : List (String × JVal)) (k : String) : Option JVal :=
  match kvs with
  | [] => none
  | (k2, v) :: rest =>
    match jLookup rest k with
    | some w => some w
    | none => if k2 = k then some v else none

/-- Whether a numeric literal denotes zero (all mantissa digits are 0). -/
def numIsZero (lit : String) : Bool :=
  let mantissa := lit.data.takeWhile (fun c => c ≠ 'e' && c ≠ 'E')
  let digits := mantissa.filter Char.isDigit
  !digits.isEmpty && digits.all (· = '0')

/-- Python truthiness of a JSON-decoded value. -/
def JVal.truthy : JVal → Bool
  | .null => false
  | .bool b => b
  | .num l => !(numIsZero l)
  | .str s => !(s == "")
  | .arr xs => !xs.isEmpty
  | .obj kvs => !kvs.isEmpty

/-- The Python expression a or b on JSON-decoded values. -/
def pyOr (a b : JVal) : JVal := if a.truthy then a else b

/-- The single-quote character, written by code point. -/
def squote : String := String.singleton (Char.ofNat 39)

mutual

/-- Python repr of a JSON-decoded value; string escaping inside repr and
float canonicalisation are approximated, as no verified path depends on them. -/
def JVal.pyRepr : JVal → String
  | .null => "None"
  | .bool true => "True"
  | .bool false => "False"
  | .num l => l
  | .str s => squote ++ s ++ squote
  | .arr xs => "[" ++ JVal.pyReprL xs ++ "]"
  | .obj kvs => "\x7b" ++ JVal.pyReprO kvs ++ "\x7d"

/-- Comma-separated repr of list elements. -/
def JVal.pyReprL : List JVal → String
  | [] => ""
  | [x] => JVal.pyRepr x
  | x :: xs => JVal.pyRepr x ++ ", " ++ JVal.pyReprL xs

/-- Comma-separated repr of dict members. -/
def JVal.pyReprO : List (String × JVal) → String
  | [] => ""
  | [(k, v)] => squote ++ k ++ squote ++ ": " ++ JVal.pyRepr v
  | (k, v) :: kvs => squote ++ k ++ squote ++ ": " ++ JVal.pyRepr v ++ ", " ++ JVal.pyReprO kvs

end

/-- Python str of a JSON-decoded value, as used by f-string interpolation. -/
def JVal.pyStr : JVal → String
  | .str s => s
  | v => JVal.pyRepr v

/-- Characters of the literal three backticks followed by json, the fixed
head of the fenced-block regex used by both parsers. -/
def fenceJson : List Char := toL "```json"

/-- Characters of the closing fence literal. -/
def fence3 : List Char := toL "```"

/-- Search for the closing brace of the lazily matched group: the group ends
at the first right brace whose remainder is whitespace and then three
backticks, mirroring the lazy dot-star of the regex. -/
def findClose (acc : List Char) : List Char → Option (List Char)
  | [] => none
  | c :: cs =>
    if c = rbraceC && startsWithL fence3 (cs.dropWhile pyWs) then
      some (lbraceC :: acc.reverse ++ [rbraceC])
    else findClose (c :: acc) cs

/-- The re.search of the fenced-JSON-block pattern over the whole text:
try every start position left to right; at a literal match skip whitespace,
require an opening brace, and lazily close the group.  Returns the first
captured group. -/
def searchFence : List Char → Option (List Char)
  | [] => none
  | c :: cs =>
    if startsWithL fenceJson (c :: cs) then
      match ((c :: cs).drop 7).dropWhile pyWs with
      | b :: body =>
        if b = lbraceC then
          match findClose [] body with
          | some g => some g
          | none => searchFence cs
        else searchFence cs
      | [] => searchFence cs
    else searchFence cs

namespace ExpertAuditor

/-- The dict returned by parse_decision_from_content in
expert-auditor-pro/scripts/main.py: decision, reason and feedback values as
decoded from JSON (or synthesised strings). -/
structure VerdictD where
  decision : JVal
  reason : JVal
  feedback : JVal
  deriving DecidableEq

/-- Attempt 1 of parse_decision_from_content: json.loads on the stripped
content; used when it yields a dict containing a decision key.  Field
defaults: reason and feedback default to the empty string; the CONCERNS
default on decision is unreachable because the key presence was checked. -/
def auditTry1 (content : String) : Option VerdictD :=
  match jsonLoads (pyStrip content) with
  | some (JVal.obj kvs) =>
    match jLookup kvs "decision" with
    | some d =>
      some ⟨d, (jLookup kvs "reason").getD (JVal.str ""), (jLookup kvs "feedback").getD (JVal.str "")⟩
    | none => none
  | _ => none

/-- Attempt 2 of parse_decision_from_content: the first fenced json block of
the raw content, parsed, when it contains a decision key. -/
def auditTry2 (content : String) : Option VerdictD :=
  match searchFence content.data with
  | some grp =>
    match jsonLoads ⟨grp⟩ with
    | some (JVal.obj kvs) =>
      match jLookup kvs "decision" with
      | some d =>
        some ⟨d, (jLookup kvs "reason").getD (JVal.str ""), (jLookup kvs "feedback").getD (JVal.str "")⟩
      | none => none
    | _ => none
  | none => none

/-- Attempt 3 of parse_decision_from_content: keyword prefix match on the
uppercased stripped content. -/
def auditTry3 (content : String) : Option VerdictD :=
  let up : List Char := (pyStrip content).data.map Char.toUpper
  if startsWithL (toL "APPROVE") up then
    some ⟨JVal.str "APPROVE", JVal.str "Model approved", JVal.str ""⟩
  else if startsWithL (toL "CONCERNS") up then
    some ⟨JVal.str "CONCERNS", JVal.str "Model has concerns", JVal.str content⟩
  else if startsWithL (toL "REJECT") up then
    some ⟨JVal.str "REJECT", JVal.str "Model rejected", JVal.str content⟩
  else none

/-- parse_decision_from_content of expert-auditor-pro/scripts/main.py:
layered extraction with a degraded CONCERNS fallback carrying the raw text. -/
def parse_decision_from_content (content : String) : VerdictD :=
  match auditTry1 content with
  | some v => v
  | none =>
    match auditTry2 content with
    | some v => v
    | none =>
      match auditTry3 content with
      | some v => v
      | none => ⟨JVal.str "CONCERNS", JVal.str "Unable to parse decision", JVal.str content⟩

end ExpertAuditor

/-- The fields of a reviewer-call result dict that either merge_results
reads: the truthiness of the success entry, and the optional decision,
reason and feedback entries (absent key modelled as none).  Other entries
(model, content, usage, error, elapsed, raw) are never read by a merge. -/
structure RResult where
  success : Bool
  decision : Option JVal
  reason : Option JVal
  feedback : Option JVal
  deriving DecidableEq

/-- The empty dict, as produced by the or-default on a None argument. -/
def emptyResult : RResult := ⟨false, none, none, none⟩

namespace ExpertAuditor

/-- The merged-decision dict built by merge_results of
expert-auditor-pro/scripts/main.py.  The decision and model entries are
always string literals in the source; feedback is absent in the
both-approve branch. -/
structure Merged where
  decision : String
  reason : JVal
  feedback : Option JVal
  model : String
  deriving DecidableEq

/-- merge_results of expert-auditor-pro/scripts/main.py (consensus mode B).
A None argument is replaced by the empty dict; a failed reviewer is treated
as an explicit CONCERNS. -/
def merge_results (qwenResult geminiResult : Option RResult) : Merged :=
  let q := qwenResult.getD emptyResult
  let g := geminiResult.getD emptyResult
  let qd : JVal := if q.success then q.decision.getD (JVal.str "CONCERNS") else JVal.str "CONCERNS"
  let gd : JVal := if g.success then g.decision.getD (JVal.str "CONCERNS") else JVal.str "CONCERNS"
  let qr : JVal := q.reason.getD (JVal.str "")
  let gr : JVal := g.reason.getD (JVal.str "")
  if qd = JVal.str "REJECT" ∨ gd = JVal.str "REJECT" then
    { decision := "REJECT"
      reason := pyOr qr (pyOr gr (JVal.str "Model rejected"))
      feedback := some (pyOr (q.feedback.getD (JVal.str "")) (g.feedback.getD (JVal.str "")))
      model := if qd = JVal.str "REJECT" then "qwen" else "gemini" }
  else if qd = JVal.str "CONCERNS" ∧ gd = JVal.str "CONCERNS" then
    { decision := "REJECT"
      reason := JVal.str "Both models have concerns"
      feedback := some (JVal.str ("Qwen: " ++ qr.pyStr ++ "\nGemini: " ++ gr.pyStr))
      model := "both" }
  else if (qd = JVal.str "APPROVE" ∧ gd = JVal.str "CONCERNS") ∨
          (qd = JVal.str "CONCERNS" ∧ gd = JVal.str "APPROVE") then
    { decision := "APPROVE"
      reason := JVal.str "Approved with warnings"
      feedback := some (JVal.str ("Warning: " ++ (pyOr qr (pyOr gr (JVal.str "One model has concerns"))).pyStr))
      model := if gd = JVal.str "CONCERNS" then "qwen" else "gemini" }
  else
    { decision := "APPROVE"
      reason := pyOr qr (JVal.str "Both approved")
      feedback := none
      model := "both" }

end ExpertAuditor

namespace PlanReview

/-- The result dict of call_reviewer in
gemini-plan-review/scripts/plan-gemini-review.py, after the subprocess has
returned: a failure with an error message, or a successful extraction with
decision, reason and feedback values (elapsed is omitted as irrelevant
timing data; raw carries the stripped stdout). -/
inductive CallOutcome where
  | fail (err : String) : CallOutcome
  | ok (decision reason feedback : JVal) (raw : String) : CallOutcome
  deriving DecidableEq

/-- The repeated return block of call_reviewer: read decision, reason and
feedback from a decoded dict.  A missing decision defaults to APPROVE,
missing reason and feedback default to the empty string. -/
def extractFromObj (dkvs : List (String × JVal)) (raw : String) : CallOutcome :=
  CallOutcome.ok ((jLookup dkvs "decision").getD (JVal.str "APPROVE"))
    ((jLookup dkvs "reason").getD (JVal.str ""))
    ((jLookup dkvs "feedback").getD (JVal.str "")) raw

/-- The unable-to-parse fallback of call_reviewer: a successful CONCERNS
verdict carrying the first 200 characters of the unparsed text. -/
def concernsFallback (text : String) (raw : String) : CallOutcome :=
  CallOutcome.ok (JVal.str "CONCERNS")
    (JVal.str "Unable to parse model response as JSON decision")
    (JVal.str ("Raw response: " ++ (⟨text.data.take 200⟩ : String))) raw

/-- The qwen-format path of call_reviewer: result_text is a string; parse it
as JSON, else look for a fenced json block, else fall back to CONCERNS.
A decoded non-dict raises AttributeError on the .get call, which the outer
handler converts to a failure. -/
def qwenTextPath (s : String) (raw : String) : CallOutcome :=
  match jsonLoads s with
  | some (JVal.obj dkvs) => extractFromObj dkvs raw
  | some _ => CallOutcome.fail "AttributeError"
  | none =>
    match searchFence s.data with
    | some grp =>
      match jsonLoads ⟨grp⟩ with
      | some (JVal.obj dkvs) => extractFromObj dkvs raw
      | some _ => CallOutcome.fail "AttributeError"
      | none => concernsFallback s raw
    | none => concernsFallback s raw

/-- The gemini-format tail of call_reviewer after the fenced-block attempt:
pass the whole decoded object through when it is a dict with a decision key,
else fall back to CONCERNS. -/
def geminiTail (parsed : JVal) (output : String) : CallOutcome :=
  match parsed with
  | JVal.obj kvs =>
    match jLookup kvs "decision" with
    | some d =>
      CallOutcome.ok d ((jLookup kvs "reason").getD (JVal.str ""))
        ((jLookup kvs "feedback").getD (JVal.str "")) output
    | none => concernsFallback output output
  | _ => concernsFallback output output

/-- The gemini-format path of call_reviewer: try a fenced json block of the
whole output first, then the decoded object itself. -/
def geminiPath (parsed : JVal) (output : String) : CallOutcome :=
  match searchFence output.data with
  | some grp =>
    match jsonLoads ⟨grp⟩ with
    | some (JVal.obj dkvs) => extractFromObj dkvs output
    | some _ => CallOutcome.fail "AttributeError"
    | none => geminiTail parsed output
  | none => geminiTail parsed output

/-- The decision-extraction portion of call_reviewer in
gemini-plan-review/scripts/plan-gemini-review.py, as a function of the
subprocess stdout (the paths after a zero return code).  Empty output and
undecodable stdout are failures; a JSON list routes its last element through
the qwen format, everything else through the gemini format.  A truthy
non-string result entry makes json.loads raise TypeError, and a non-dict
list element raises AttributeError; both become failures via the outer
exception handler. -/
def call_reviewer_extract (stdout : String) : CallOutcome :=
  let output := pyStrip stdout
  if output = "" then CallOutcome.fail "Empty result"
  else
    match jsonLoads output with
    | none => CallOutcome.fail "JSON parse error"
    | some parsed =>
      match parsed with
      | JVal.arr elems =>
        match elems.getLast? with
        | none => geminiPath parsed output
        | some (JVal.obj ikvs) =>
          let rt := (jLookup ikvs "result").getD (JVal.str "")
          if rt.truthy then
            match rt with
            | JVal.str s => qwenTextPath s output
            | _ => CallOutcome.fail "TypeError"
          else geminiPath parsed output
        | some _ => CallOutcome.fail "AttributeError"
      | _ => geminiPath parsed output

/-- The merged-decision dict built by merge_results of
gemini-plan-review/scripts/plan-gemini-review.py.  Feedback is absent in
the qwen-failed and both-approve branches. -/
structure Merged2 where
  decision : JVal
  reason : JVal
  feedback : Option JVal
  model : String
  deriving DecidableEq

/-- merge_results of gemini-plan-review/scripts/plan-gemini-review.py: qwen
is the primary reviewer, gemini advisory.  A qwen failure allows the plan; a
gemini failure is treated as APPROVE with empty reason; a blocking qwen
verdict wins over gemini. -/
def merge_results (geminiResult qwenResult : RResult) : Merged2 :=
  if !qwenResult.success then
    ⟨JVal.str "APPROVE", JVal.str "Qwen failed, allowing", none, "N/A"⟩
  else
    let qd := qwenResult.decision.getD (JVal.str "APPROVE")
    let qr := qwenResult.reason.getD (JVal.str "")
    let qf := qwenResult.feedback.getD (JVal.str "")
    let gd : JVal :=
      if geminiResult.success then geminiResult.decision.getD (JVal.str "APPROVE")
      else JVal.str "APPROVE"
    let gr : JVal :=
      if geminiResult.success then geminiResult.reason.getD (JVal.str "") else JVal.str ""
    if qd = JVal.str "CONCERNS" ∨ qd = JVal.str "REJECT" then
      ⟨qd, qr, some qf, "qwen"⟩
    else if gd = JVal.str "CONCERNS" ∨ gd = JVal.str "REJECT" then
      ⟨gd, gr, some (geminiResult.feedback.getD (JVal.str "")), "gemini"⟩
    else
      ⟨JVal.str "APPROVE", qr, none, "qwen"⟩

end PlanReview

/-- Truthiness of a Python or-expression is the disjunction of truthiness. -/
theorem pyOr_truthy (a b : JVal) : (pyOr a b).truthy = (a.truthy || b.truthy) := by
  unfold pyOr
  cases ha : a.truthy <;> simp [ha]

/-- An or-chain ending in a non-empty string literal is always truthy. -/
theorem pyOr_chain_truthy (a b : JVal) (s : String) (hs : (JVal.str s).truthy = true) :
    (pyOr a (pyOr b (JVal.str s))).truthy = true := by
  rw [pyOr_truthy, pyOr_truthy, hs]
  simp

/-- Evaluation of parse_decision_from_content when the first strategy
succeeds: the whole stripped content decodes to a dict with a decision key. -/
theorem parse_strategy1 (content : String) (kvs : List (String × JVal)) (d : JVal)
    (h1 : jsonLoads (pyStrip content) = some (JVal.obj kvs))
    (h2 : jLookup kvs "decision" = some d) :
    ExpertAuditor.parse_decision_from_content content =
      ⟨d, (jLookup kvs "reason").getD (JVal.str ""), (jLookup kvs "feedback").getD (JVal.str "")⟩ := by
  simp only [ExpertAuditor.parse_decision_from_content, ExpertAuditor.auditTry1, h1, h2]

/-- C1.  The claim says merge(Absent, Absent) = APPROVE with reason
"no reviewer available" and no attribution; the code instead treats each
failed reviewer as an explicit CONCERNS and the both-CONCERNS rule fires:
the merge of two failures is REJECT with reason "Both models have concerns"
attributed to both. -/
theorem C1_counterexample :
    ExpertAuditor.merge_results (some ⟨false, none, none, none⟩) (some ⟨false, none, none, none⟩) =
      ⟨"REJECT", JVal.str "Both models have concerns", some (JVal.str "Qwen: \nGemini: "), "both"⟩ ∧
    (ExpertAuditor.merge_results (some ⟨false, none, none, none⟩) (some ⟨false, none, none, none⟩)).decision ≠ "APPROVE" := by
  exact ⟨rfl, by decide⟩

/-- C1 (amended).  When both reviewers are absent (both calls failed), the
symmetric merge is fail-closed, not fail-open: it returns REJECT with reason
"Both models have concerns", feedback labelling the two (defaulted) reasons,
and attribution to both. -/
theorem C1_both_absent_rejects (q g : RResult)
    (hq : q.success = false) (hg : g.success = false) :
    ExpertAuditor.merge_results (some q) (some g) =
      ⟨"REJECT", JVal.str "Both models have concerns",
        some (JVal.str ("Qwen: " ++ (q.reason.getD (JVal.str "")).pyStr ++
          "\nGemini: " ++ (g.reason.getD (JVal.str "")).pyStr)),
        "both"⟩ := by
  simp [ExpertAuditor.merge_results, hq, hg]

/-- C1 witness: the amended theorem applied to two concrete failure dicts. -/
theorem C1_witness :
    ExpertAuditor.merge_results (some ⟨false, none, none, none⟩) (some ⟨false, none, some (JVal.str "x"), none⟩) =
      ⟨"REJECT", JVal.str "Both models have concerns", some (JVal.str "Qwen: \nGemini: x"), "both"⟩ :=
  C1_both_absent_rejects ⟨false, none, none, none⟩ ⟨false, none, some (JVal.str "x"), none⟩ rfl rfl

/-- C5.  The claim states the reason literally as "both reviewers have
concerns"; on two present CONCERNS verdicts the code emits the fixed string
"Both models have concerns" (different wording and capitalisation), while
decision, feedback shape and attribution match the claim. -/
theorem C5_counterexample :
    ExpertAuditor.merge_results
        (some ⟨true, some (JVal.str "CONCERNS"), some (JVal.str "a"), none⟩)
        (some ⟨true, some (JVal.str "CONCERNS"), some (JVal.str "b"), none⟩) =
      ⟨"REJECT", JVal.str "Both models have concerns", some (JVal.str "Qwen: a\nGemini: b"), "both"⟩ ∧
    (ExpertAuditor.merge_results
        (some ⟨true, some (JVal.str "CONCERNS"), some (JVal.str "a"), none⟩)
        (some ⟨true, some (JVal.str "CONCERNS"), some (JVal.str "b"), none⟩)).reason ≠
      JVal.str "both reviewers have concerns" := by
  exact ⟨rfl, by decide⟩

/-- C5 (amended).  Two present CONCERNS verdicts merge to REJECT with the
fixed reason "Both models have concerns", feedback concatenating both
reviewer reasons labelled Qwen and Gemini, attributed to both. -/
theorem C5_both_concerns_reject (q g : RResult)
    (hq : q.success = true) (hg : g.success = true)
    (hqd : q.decision = some (JVal.str "CONCERNS"))
    (hgd : g.decision = some (JVal.str "CONCERNS")) :
    ExpertAuditor.merge_results (some q) (some g) =
      ⟨"REJECT", JVal.str "Both models have concerns",
        some (JVal.str ("Qwen: " ++ (q.reason.getD (JVal.str "")).pyStr ++
          "\nGemini: " ++ (g.reason.getD (JVal.str "")).pyStr)),
        "both"⟩ := by
  simp [ExpertAuditor.merge_results, hq, hg, hqd, hgd]

/-- C5 witness: the amended theorem applied to two concrete CONCERNS verdicts. -/
theorem C5_witness :
    ExpertAuditor.merge_results
        (some ⟨true, some (JVal.str "CONCERNS"), some (JVal.str "slow"), none⟩)
        (some ⟨true, some (JVal.str "CONCERNS"), some (JVal.str "risky"), none⟩) =
      ⟨"REJECT", JVal.str "Both models have concerns", some (JVal.str "Qwen: slow\nGemini: risky"), "both"⟩ :=
  C5_both_concerns_reject _ _ rfl rfl rfl rfl

/-- C6.  Two conjuncts of the claim fail: a JSON-supplied decision value is
passed through unvalidated, so the returned verdict need not be well formed
(decision MAYBE is none of APPROVE, CONCERNS, REJECT); and the fallback
reason is capitalised "Unable to parse decision", not the claimed lowercase
string. -/
theorem C6_counterexample :
    (ExpertAuditor.parse_decision_from_content "\x7b\"decision\": \"MAYBE\"\x7d").decision = JVal.str "MAYBE" ∧
    JVal.str "MAYBE" ≠ JVal.str "APPROVE" ∧
    JVal.str "MAYBE" ≠ JVal.str "CONCERNS" ∧
    JVal.str "MAYBE" ≠ JVal.str "REJECT" ∧
    (ExpertAuditor.parse_decision_from_content "hello").reason = JVal.str "Unable to parse decision" ∧
    JVal.str "Unable to parse decision" ≠ JVal.str "unable to parse decision" := by
  exact ⟨rfl, by decide, by decide, by decide, rfl, by decide⟩

/-- C6 (amended).  parse_decision_from_content is total by construction, and
whenever all three extraction strategies fail it returns exactly the
degraded verdict: decision CONCERNS, reason "Unable to parse decision"
(capitalised), feedback the raw input text - never APPROVE.  The decision of
a successfully parsed JSON object is passed through unvalidated, so the
result is only well formed up to that pass-through. -/
theorem C6_parse_total_fallback (content : String)
    (h1 : ExpertAuditor.auditTry1 content = none)
    (h2 : ExpertAuditor.auditTry2 content = none)
    (h3 : ExpertAuditor.auditTry3 content = none) :
    ExpertAuditor.parse_decision_from_content content =
      ⟨JVal.str "CONCERNS", JVal.str "Unable to parse decision", JVal.str content⟩ := by
  simp only [ExpertAuditor.parse_decision_from_content, h1, h2, h3]

/-- C6 witness: the amended theorem applied to a concrete unparseable text. -/
theorem C6_witness :
    ExpertAuditor.parse_decision_from_content "hello world" =
      ⟨JVal.str "CONCERNS", JVal.str "Unable to parse decision", JVal.str "hello world"⟩ :=
  C6_parse_total_fallback "hello world" rfl rfl rfl

/-- C2.  The claim says a lone present verdict is used verbatim; but a
present CONCERNS verdict merged with an absent reviewer is escalated to
REJECT (the absent side is treated as a second CONCERNS), so the merge is
not the identity on the present verdict. -/
theorem C2_counterexample :
    ExpertAuditor.merge_results
        (some ⟨false, none, none, none⟩)
        (some ⟨true, some (JVal.str "CONCERNS"), some (JVal.str "needs work"), some (JVal.str "fw")⟩) =
      ⟨"REJECT", JVal.str "Both models have concerns", some (JVal.str "Qwen: \nGemini: needs work"), "both"⟩ ∧
    (ExpertAuditor.merge_results
        (some ⟨false, none, none, none⟩)
        (some ⟨true, some (JVal.str "CONCERNS"), some (JVal.str "needs work"), some (JVal.str "fw")⟩)).decision ≠
      "CONCERNS" := by
  exact ⟨rfl, by decide⟩

/-- C2 (amended).  An absent reviewer (a failed call, whose dict has no
reason or feedback entries) is merged exactly as an explicit CONCERNS
verdict with empty reason and feedback, in either argument position - not
skipped.  Consequently only a present REJECT keeps its decision with
attribution to the present reviewer; a present APPROVE becomes the
warning-annotated APPROVE and a present CONCERNS escalates to REJECT. -/
theorem C2_absent_is_explicit_concerns (v a : RResult)
    (ha : a.success = false) (har : a.reason = none) (haf : a.feedback = none) :
    (ExpertAuditor.merge_results (some v) (some a) =
       ExpertAuditor.merge_results (some v)
         (some ⟨true, some (JVal.str "CONCERNS"), some (JVal.str ""), some (JVal.str "")⟩)) ∧
    (ExpertAuditor.merge_results (some a) (some v) =
       ExpertAuditor.merge_results
         (some ⟨true, some (JVal.str "CONCERNS"), some (JVal.str ""), some (JVal.str "")⟩)
         (some v)) ∧
    (v.success = true → v.decision = some (JVal.str "REJECT") →
      (ExpertAuditor.merge_results (some v) (some a)).decision = "REJECT" ∧
      (ExpertAuditor.merge_results (some v) (some a)).model = "qwen" ∧
      (ExpertAuditor.merge_results (some a) (some v)).decision = "REJECT" ∧
      (ExpertAuditor.merge_results (some a) (some v)).model = "gemini") := by
  refine ⟨?_, ?_, ?_⟩
  · simp [ExpertAuditor.merge_results, ha, har, haf]
  · simp [ExpertAuditor.merge_results, ha, har, haf]
  · intro hv hvd
    simp [ExpertAuditor.merge_results, ha, har, haf, hv, hvd]

/-- C2 witness: a present REJECT beside a concrete absent reviewer, with all
hypotheses discharged. -/
theorem C2_witness :
    (ExpertAuditor.merge_results
        (some ⟨true, some (JVal.str "REJECT"), some (JVal.str "bad plan"), some (JVal.str "f")⟩)
        (some ⟨false, none, none, none⟩)).decision = "REJECT" ∧
    (ExpertAuditor.merge_results
        (some ⟨true, some (JVal.str "REJECT"), some (JVal.str "bad plan"), some (JVal.str "f")⟩)
        (some ⟨false, none, none, none⟩)).model = "qwen" := by
  have h := C2_absent_is_explicit_concerns
    ⟨true, some (JVal.str "REJECT"), some (JVal.str "bad plan"), some (JVal.str "f")⟩
    ⟨false, none, none, none⟩ rfl rfl rfl
  exact ⟨(h.2.2 rfl rfl).1, (h.2.2 rfl rfl).2.1⟩

/-- C3.  The claim says reason and feedback come from the rejecting
reviewer; the code instead takes the first truthy value in the fixed
qwen-then-gemini order, so a rejecting Gemini with a populated Qwen reason
gets the approving Qwen reason attached to the REJECT. -/
theorem C3_counterexample :
    ExpertAuditor.merge_results
        (some ⟨true, some (JVal.str "APPROVE"), some (JVal.str "lgtm"), some (JVal.str "")⟩)
        (some ⟨true, some (JVal.str "REJECT"), some (JVal.str "dangerous"), some (JVal.str "unsafe op")⟩) =
      ⟨"REJECT", JVal.str "lgtm", some (JVal.str "unsafe op"), "gemini"⟩ ∧
    (ExpertAuditor.merge_results
        (some ⟨true, some (JVal.str "APPROVE"), some (JVal.str "lgtm"), some (JVal.str "")⟩)
        (some ⟨true, some (JVal.str "REJECT"), some (JVal.str "dangerous"), some (JVal.str "unsafe op")⟩)).reason ≠
      JVal.str "dangerous" := by
  exact ⟨rfl, by decide⟩

/-- C3 (amended).  REJECT is absorbing over present verdicts: if either
present decision is REJECT the merge is REJECT, attributed to qwen when qwen
rejected (the first in the fixed order, also on a double reject) and to
gemini otherwise; but reason and feedback are each the first truthy value in
qwen-then-gemini order (with fallback "Model rejected"), regardless of which
reviewer rejected. -/
theorem C3_reject_absorbing_qwen_first (q g : RResult)
    (hq : q.success = true) (hg : g.success = true)
    (h : q.decision.getD (JVal.str "CONCERNS") = JVal.str "REJECT" ∨
         g.decision.getD (JVal.str "CONCERNS") = JVal.str "REJECT") :
    ExpertAuditor.merge_results (some q) (some g) =
      ⟨"REJECT",
        pyOr (q.reason.getD (JVal.str "")) (pyOr (g.reason.getD (JVal.str "")) (JVal.str "Model rejected")),
        some (pyOr (q.feedback.getD (JVal.str "")) (g.feedback.getD (JVal.str ""))),
        if q.decision.getD (JVal.str "CONCERNS") = JVal.str "REJECT" then "qwen" else "gemini"⟩ := by
  simp only [ExpertAuditor.merge_results, Option.getD_some, hq, hg, if_true]
  rw [if_pos h]

/-- C3 witness: a double reject, attributed to qwen (first in the fixed
order) with the qwen reason and feedback. -/
theorem C3_witness :
    ExpertAuditor.merge_results
        (some ⟨true, some (JVal.str "REJECT"), some (JVal.str "r1"), some (JVal.str "f1")⟩)
        (some ⟨true, some (JVal.str "REJECT"), some (JVal.str "r2"), some (JVal.str "f2")⟩) =
      ⟨"REJECT", JVal.str "r1", some (JVal.str "f1"), "qwen"⟩ := by
  have h := C3_reject_absorbing_qwen_first
    ⟨true, some (JVal.str "REJECT"), some (JVal.str "r1"), some (JVal.str "f1")⟩
    ⟨true, some (JVal.str "REJECT"), some (JVal.str "r2"), some (JVal.str "f2")⟩
    rfl rfl (Or.inl rfl)
  exact h.trans (by rfl)

/-- C4.  On APPROVE plus CONCERNS the claim puts the warning-prefixed
concerned reason into the merged reason and attributes the result to the
concerned reviewer; the code emits the fixed reason "Approved with
warnings", places the warning prefix on feedback using the first truthy
reason in qwen-then-gemini order, and attributes the result to the
approving reviewer. -/
theorem C4_counterexample :
    ExpertAuditor.merge_results
        (some ⟨true, some (JVal.str "APPROVE"), some (JVal.str "ok"), some (JVal.str "")⟩)
        (some ⟨true, some (JVal.str "CONCERNS"), some (JVal.str "risky"), some (JVal.str "")⟩) =
      ⟨"APPROVE", JVal.str "Approved with warnings", some (JVal.str "Warning: ok"), "qwen"⟩ ∧
    (ExpertAuditor.merge_results
        (some ⟨true, some (JVal.str "APPROVE"), some (JVal.str "ok"), some (JVal.str "")⟩)
        (some ⟨true, some (JVal.str "CONCERNS"), some (JVal.str "risky"), some (JVal.str "")⟩)).reason ≠
      JVal.str "Warning: risky" ∧
    (ExpertAuditor.merge_results
        (some ⟨true, some (JVal.str "APPROVE"), some (JVal.str "ok"), some (JVal.str "")⟩)
        (some ⟨true, some (JVal.str "CONCERNS"), some (JVal.str "risky"), some (JVal.str "")⟩)).model ≠
      "gemini" := by
  exact ⟨rfl, by decide, by decide⟩

/-- C4 (amended).  One present APPROVE and one present CONCERNS, in either
order, merge to APPROVE with the fixed reason "Approved with warnings"; the
warning appears on feedback as "Warning: " followed by the first truthy
reason in qwen-then-gemini order (fallback "One model has concerns"), and
the result is attributed to the approving reviewer, not the concerned one. -/
theorem C4_approve_concerns_warning (q g : RResult)
    (hq : q.success = true) (hg : g.success = true) :
    (q.decision = some (JVal.str "APPROVE") → g.decision = some (JVal.str "CONCERNS") →
      ExpertAuditor.merge_results (some q) (some g) =
        ⟨"APPROVE", JVal.str "Approved with warnings",
          some (JVal.str ("Warning: " ++
            (pyOr (q.reason.getD (JVal.str ""))
              (pyOr (g.reason.getD (JVal.str "")) (JVal.str "One model has concerns"))).pyStr)),
          "qwen"⟩) ∧
    (q.decision = some (JVal.str "CONCERNS") → g.decision = some (JVal.str "APPROVE") →
      ExpertAuditor.merge_results (some q) (some g) =
        ⟨"APPROVE", JVal.str "Approved with warnings",
          some (JVal.str ("Warning: " ++
            (pyOr (q.reason.getD (JVal.str ""))
              (pyOr (g.reason.getD (JVal.str "")) (JVal.str "One model has concerns"))).pyStr)),
          "gemini"⟩) := by
  constructor
  · intro hqd hgd
    simp [ExpertAuditor.merge_results, hq, hg, hqd, hgd]
  · intro hqd hgd
    simp [ExpertAuditor.merge_results, hq, hg, hqd, hgd]

/-- C4 witness: a concerned Qwen with an empty reason beside an approving
Gemini; the warning on feedback carries the approving reviewer reason and
the result is attributed to Gemini, the approving side. -/
theorem C4_witness :
    ExpertAuditor.merge_results
        (some ⟨true, some (JVal.str "CONCERNS"), some (JVal.str ""), some (JVal.str "")⟩)
        (some ⟨true, some (JVal.str "APPROVE"), some (JVal.str "looks fine"), some (JVal.str "")⟩) =
      ⟨"APPROVE", JVal.str "Approved with warnings", some (JVal.str "Warning: looks fine"), "gemini"⟩ := by
  have h := C4_approve_concerns_warning
    ⟨true, some (JVal.str "CONCERNS"), some (JVal.str ""), some (JVal.str "")⟩
    ⟨true, some (JVal.str "APPROVE"), some (JVal.str "looks fine"), some (JVal.str "")⟩
    rfl rfl
  exact (h.2 rfl rfl).trans (by rfl)

/-- C7.  The claim says a missing decision defaults to CONCERNS in every
parsing path of both reviewer variants; in the gemini-plan-review variant a
successfully parsed result object without a decision key yields APPROVE. -/
theorem C7_counterexample :
    PlanReview.call_reviewer_extract "[\x7b\"result\": \"\x7b\x7d\"\x7d]" =
      PlanReview.CallOutcome.ok (JVal.str "APPROVE") (JVal.str "") (JVal.str "")
        "[\x7b\"result\": \"\x7b\x7d\"\x7d]" ∧
    JVal.str "APPROVE" ≠ JVal.str "CONCERNS" := by
  exact ⟨rfl, by decide⟩

/-- C7 (amended).  Missing reason and feedback fields of a successfully
parsed JSON object default to the empty string in both reviewer variants.
In the expert-auditor parser a decision value is read only after its key is
checked present, so its CONCERNS default is unreachable; in the
gemini-plan-review variant a missing decision key defaults to the literal
APPROVE, not CONCERNS. -/
theorem C7_missing_field_defaults :
    (∀ (content : String) (kvs : List (String × JVal)) (d : JVal),
      jsonLoads (pyStrip content) = some (JVal.obj kvs) →
      jLookup kvs "decision" = some d →
      ExpertAuditor.parse_decision_from_content content =
        ⟨d, (jLookup kvs "reason").getD (JVal.str ""), (jLookup kvs "feedback").getD (JVal.str "")⟩) ∧
    (∀ (s raw : String) (dkvs : List (String × JVal)),
      jsonLoads s = some (JVal.obj dkvs) →
      PlanReview.qwenTextPath s raw =
        PlanReview.CallOutcome.ok ((jLookup dkvs "decision").getD (JVal.str "APPROVE"))
          ((jLookup dkvs "reason").getD (JVal.str ""))
          ((jLookup dkvs "feedback").getD (JVal.str "")) raw) := by
  constructor
  · exact parse_strategy1
  · intro s raw dkvs h
    simp only [PlanReview.qwenTextPath, h, PlanReview.extractFromObj]

/-- C7 witness: both conjuncts applied to concrete objects, one missing the
reason and feedback keys, one missing the decision key. -/
theorem C7_witness :
    ExpertAuditor.parse_decision_from_content "\x7b\"decision\": \"REJECT\"\x7d" =
      ⟨JVal.str "REJECT", JVal.str "", JVal.str ""⟩ ∧
    PlanReview.qwenTextPath "\x7b\"reason\": \"r\"\x7d" "raw" =
      PlanReview.CallOutcome.ok (JVal.str "APPROVE") (JVal.str "r") (JVal.str "") "raw" := by
  constructor
  · exact (C7_missing_field_defaults.1 "\x7b\"decision\": \"REJECT\"\x7d"
      [("decision", JVal.str "REJECT")] (JVal.str "REJECT") rfl rfl).trans (by rfl)
  · exact (C7_missing_field_defaults.2 "\x7b\"reason\": \"r\"\x7d" "raw"
      [("reason", JVal.str "r")] rfl).trans (by rfl)

/-- C8.  In the gemini-plan-review merge, qwen is primary and gemini
advisory: a gemini failure is merged exactly as a successful gemini APPROVE
with empty reason (ignored); a present gemini CONCERNS or REJECT makes the
final decision blocking whenever the primary said APPROVE or CONCERNS; and
a present primary REJECT always yields REJECT. -/
theorem C8_advisory_profile (g q : RResult) :
    (g.success = false →
      PlanReview.merge_results g q =
        PlanReview.merge_results ⟨true, some (JVal.str "APPROVE"), some (JVal.str ""), some (JVal.str "")⟩ q) ∧
    (q.success = true → g.success = true →
      (q.decision.getD (JVal.str "APPROVE") = JVal.str "APPROVE" ∨
       q.decision.getD (JVal.str "APPROVE") = JVal.str "CONCERNS") →
      (g.decision.getD (JVal.str "APPROVE") = JVal.str "CONCERNS" ∨
       g.decision.getD (JVal.str "APPROVE") = JVal.str "REJECT") →
      ((PlanReview.merge_results g q).decision = JVal.str "CONCERNS" ∨
       (PlanReview.merge_results g q).decision = JVal.str "REJECT")) ∧
    (q.success = true → q.decision = some (JVal.str "REJECT") →
      (PlanReview.merge_results g q).decision = JVal.str "REJECT") := by
  refine ⟨?_, ?_, ?_⟩
  · intro hg
    simp [PlanReview.merge_results, hg]
  · intro hq hgs hqd hgd
    rcases hqd with h | h <;> rcases hgd with h2 | h2 <;>
      simp [PlanReview.merge_results, hq, hgs, h, h2]
  · intro hq hqd
    simp [PlanReview.merge_results, hq, hqd]

/-- C8 witness: a failed gemini is ignored, a present gemini REJECT blocks a
primary APPROVE, and a primary REJECT survives, each at concrete inputs. -/
theorem C8_witness :
    PlanReview.merge_results ⟨false, none, none, none⟩
        ⟨true, some (JVal.str "APPROVE"), some (JVal.str "good"), none⟩ =
      PlanReview.merge_results ⟨true, some (JVal.str "APPROVE"), some (JVal.str ""), some (JVal.str "")⟩
        ⟨true, some (JVal.str "APPROVE"), some (JVal.str "good"), none⟩ ∧
    ((PlanReview.merge_results ⟨true, some (JVal.str "REJECT"), some (JVal.str "no"), none⟩
        ⟨true, some (JVal.str "APPROVE"), some (JVal.str "ok"), none⟩).decision = JVal.str "CONCERNS" ∨
     (PlanReview.merge_results ⟨true, some (JVal.str "REJECT"), some (JVal.str "no"), none⟩
        ⟨true, some (JVal.str "APPROVE"), some (JVal.str "ok"), none⟩).decision = JVal.str "REJECT") ∧
    (PlanReview.merge_results ⟨false, none, none, none⟩
        ⟨true, some (JVal.str "REJECT"), some (JVal.str "no"), none⟩).decision = JVal.str "REJECT" := by
  refine ⟨?_, ?_, ?_⟩
  · exact (C8_advisory_profile ⟨false, none, none, none⟩
      ⟨true, some (JVal.str "APPROVE"), some (JVal.str "good"), none⟩).1 rfl
  · exact (C8_advisory_profile ⟨true, some (JVal.str "REJECT"), some (JVal.str "no"), none⟩
      ⟨true, some (JVal.str "APPROVE"), some (JVal.str "ok"), none⟩).2.1 rfl rfl (Or.inl rfl) (Or.inr rfl)
  · exact (C8_advisory_profile ⟨false, none, none, none⟩
      ⟨true, some (JVal.str "REJECT"), some (JVal.str "no"), none⟩).2.2 rfl rfl

/-- C9.  The warning-annotated APPROVE branch populates feedback on an
APPROVE decision, violating the claimed invariant that feedback is
populated only when the decision is not APPROVE. -/
theorem C9_counterexample :
    (ExpertAuditor.merge_results
        (some ⟨true, some (JVal.str "CONCERNS"), some (JVal.str "hmm"), none⟩)
        (some ⟨true, some (JVal.str "APPROVE"), some (JVal.str "fine"), none⟩)).decision = "APPROVE" ∧
    (ExpertAuditor.merge_results
        (some ⟨true, some (JVal.str "CONCERNS"), some (JVal.str "hmm"), none⟩)
        (some ⟨true, some (JVal.str "APPROVE"), some (JVal.str "fine"), none⟩)).feedback =
      some (JVal.str "Warning: hmm") ∧
    some (JVal.str "Warning: hmm") ≠ (none : Option JVal) := by
  exact ⟨rfl, rfl, by decide⟩

/-- C9 (amended).  For every pair of reviewer results: a non-APPROVE merged
decision carries a truthy (non-empty) reason; the both-approve APPROVE has
no feedback entry; but the warning-annotated APPROVE (the only APPROVE not
attributed to both) does populate feedback, always with the prefix
"Warning: ". -/
theorem C9_merged_invariant (qr gr : Option RResult) :
    ((ExpertAuditor.merge_results qr gr).decision ≠ "APPROVE" →
      ((ExpertAuditor.merge_results qr gr).reason).truthy = true) ∧
    ((ExpertAuditor.merge_results qr gr).decision = "APPROVE" →
      (ExpertAuditor.merge_results qr gr).model = "both" →
      (ExpertAuditor.merge_results qr gr).feedback = none) ∧
    ((ExpertAuditor.merge_results qr gr).decision = "APPROVE" →
      (ExpertAuditor.merge_results qr gr).model ≠ "both" →
      ∃ w, (ExpertAuditor.merge_results qr gr).feedback = some (JVal.str ("Warning: " ++ w))) := by
  simp only [ExpertAuditor.merge_results]
  split_ifs
  all_goals refine ⟨fun hd => ?_, fun hd hm => ?_, fun hd hm => ?_⟩
  all_goals first
    | exact pyOr_chain_truthy _ _ _ rfl
    | exact (rfl : (JVal.str "Both models have concerns").truthy = true)
    | (refine absurd hd ?_; simp; done)
    | (refine absurd hm ?_; simp; done)
    | exact absurd rfl hd
    | exact absurd rfl hm
    | exact ⟨_, rfl⟩
    | rfl

/-- C9 witness: the truthy-reason conjunct at a concrete double failure. -/
theorem C9_witness :
    ((ExpertAuditor.merge_results (some ⟨false, none, none, none⟩) none).reason).truthy = true :=
  (C9_merged_invariant (some ⟨false, none, none, none⟩) none).1 (by decide)

/-- C10.  The parser passes any JSON decision value through unvalidated and
the symmetric merge compares decision strings exactly; so the merge never
outputs CONCERNS, a lowercase "reject" decision is passed through by the
parser, and a present verdict carrying it matches no escalation rule and
falls through to the both-approve APPROVE. -/
theorem C10_no_concerns_passthrough :
    (∀ qr gr : Option RResult, (ExpertAuditor.merge_results qr gr).decision ≠ "CONCERNS") ∧
    (∀ (content : String) (kvs : List (String × JVal)) (d : JVal),
      jsonLoads (pyStrip content) = some (JVal.obj kvs) →
      jLookup kvs "decision" = some d →
      (ExpertAuditor.parse_decision_from_content content).decision = d) ∧
    ExpertAuditor.parse_decision_from_content "\x7b\"decision\": \"reject\", \"reason\": \"bad\"\x7d" =
      ⟨JVal.str "reject", JVal.str "bad", JVal.str ""⟩ ∧
    ExpertAuditor.merge_results
        (some ⟨true, some (JVal.str "reject"), some (JVal.str "bad"), some (JVal.str "")⟩)
        (some ⟨true, some (JVal.str "APPROVE"), some (JVal.str "ok"), some (JVal.str "")⟩) =
      ⟨"APPROVE", JVal.str "bad", none, "both"⟩ := by
  refine ⟨?_, ?_, rfl, rfl⟩
  · intro qr gr
    simp only [ExpertAuditor.merge_results]
    split_ifs <;> simp
  · intro content kvs d h1 h2
    rw [parse_strategy1 content kvs d h1 h2]

/-- C10 witness: the universal conjuncts applied at concrete inputs. -/
theorem C10_witness :
    (ExpertAuditor.merge_results none none).decision ≠ "CONCERNS" ∧
    (ExpertAuditor.parse_decision_from_content "\x7b\"decision\": 5\x7d").decision = JVal.num "5" := by
  constructor
  · exact C10_no_concerns_passthrough.1 none none
  · exact C10_no_concerns_passthrough.2.1 "\x7b\"decision\": 5\x7d" [("decision", JVal.num "5")] (JVal.num "5") rfl rfl
